import Mathlib

/-! Referee box match state (`gameinfo.h`) and controller (`gamecontroller.h`)

A shallow embedding of the `GameInfo` class of the RoboCup F180 referee box
and proofs of the properties its specification states about the derived
queries and the setters, followed by the controller operations, which the
sources only declare and which are written here from the specification.

Modelling conventions

* `double` is modelled by the rationals (`Double := ℚ`): exact arithmetic, no
  NaN, no infinities, no rounding.
* `int` and `std::time_t` are modelled by `Int`; none of the functions of
  `gameinfo.h` performs integer arithmetic, so no overflow can occur in them.
  The counters of the controller operations are the unbounded counts of the
  specification.
* A C array `T a[N]` is a function `Fin N → T`.  Reading `a[i]` with an index
  computed at run time goes through `CArray.read`, which yields `none` when the
  index is outside `0 .. N-1` (undefined behaviour in C++), so every query that
  indexes an array returns an `Option`.
* An unscoped `enum` is an inductive type with one constructor per enumerator
  and a function `toInt` giving the enumerator's value (`0, 1, 2, ...` in
  declaration order).  A `switch` is a chain of comparisons of these values,
  with the `default` branch kept.
* The `std::ofstream logfile` member of `GameInfo` is an output handle and is
  not part of the model.
-/

/-- Real-valued model of the C++ type `double`. -/
abbrev Double := ℚ

/-- A C array `T a[n]`. -/
abbrev CArray (α : Type) (n : Nat) := Fin n → α

/-- The read `a[i]`: `none` when `i` is out of bounds. -/
def CArray.read {α : Type} {n : Nat} (a : CArray α n) (i : Int) : Option α :=
  if h : 0 ≤ i ∧ i.toNat < n then some (a ⟨i.toNat, h.2⟩) else none

/-- The conversion `static_cast<unsigned int>(v)`: reduction modulo `2^32`. -/
def static_cast_uint (v : Int) : Nat := (v % 2 ^ 32).toNat

/-- The library function `std::max(a, b)`, which is `(a < b) ? b : a`. -/
def std_max (a b : Double) : Double := if a < b then b else a

/-- The library function `std::copy_n(first, count, result)` on arrays of one
size: the first `count` elements of `result` are overwritten with those of
`first`. -/
def std_copy_n {α : Type} {n : Nat} (first : CArray α n) (count : Nat)
    (result : CArray α n) : CArray α n :=
  fun j => if j.val < count then first j else result j

/-- The library function `std::fill_n(first, count, value)`: the first `count`
elements of `first` are overwritten with `value`. -/
def std_fill_n {α : Type} {n : Nat} (first : CArray α n) (count : Nat)
    (value : α) : CArray α n :=
  fun j => if j.val < count then value else first j

/-- The constant `#define NUM_TEAMS 2`. -/
abbrev NUM_TEAMS : Nat := 2

/-- The enumeration `enum Team {Blue, Yellow}`. -/
inductive Team where
  | Blue
  | Yellow
  deriving DecidableEq, Repr

/-- Enumerator values of `Team`. -/
def Team.toInt : Team → Int
  | .Blue => 0
  | .Yellow => 1

/-- The enumeration `enum GameState {HALTED, STOPPED, TIMEOUT, PRESTART, RUNNING}`. -/
inductive GameState where
  | HALTED
  | STOPPED
  | TIMEOUT
  | PRESTART
  | RUNNING
  deriving DecidableEq, Repr

/-- Enumerator values of `GameState`. -/
def GameState.toInt : GameState → Int
  | .HALTED => 0
  | .STOPPED => 1
  | .TIMEOUT => 2
  | .PRESTART => 3
  | .RUNNING => 4

/-- The enumeration `enum GameStage {PREGAME, FIRST_HALF, HALF_TIME, PRESECONDHALF,
SECOND_HALF, PREOVERTIME1, OVER_TIME1, PREOVERTIME2, OVER_TIME2, PENALTY_SHOOTOUT}`. -/
inductive GameStage where
  | PREGAME
  | FIRST_HALF
  | HALF_TIME
  | PRESECONDHALF
  | SECOND_HALF
  | PREOVERTIME1
  | OVER_TIME1
  | PREOVERTIME2
  | OVER_TIME2
  | PENALTY_SHOOTOUT
  deriving DecidableEq, Repr

/-- Enumerator values of `GameStage`. -/
def GameStage.toInt : GameStage → Int
  | .PREGAME => 0
  | .FIRST_HALF => 1
  | .HALF_TIME => 2
  | .PRESECONDHALF => 3
  | .SECOND_HALF => 4
  | .PREOVERTIME1 => 5
  | .OVER_TIME1 => 6
  | .PREOVERTIME2 => 7
  | .OVER_TIME2 => 8
  | .PENALTY_SHOOTOUT => 9

/-- The constant
`#define NR_GAME_STAGES (static_cast<unsigned int>(PENALTY_SHOOTOUT) + 1)`,
an `unsigned int` sum. -/
abbrev NR_GAME_STAGES : Nat :=
  (static_cast_uint GameStage.PENALTY_SHOOTOUT.toInt + 1) % 2 ^ 32

/-- The enumeration `enum GameRestart {NEUTRAL, DIRECT, INDIRECT, PENALTY, KICKOFF}`. -/
inductive GameRestart where
  | NEUTRAL
  | DIRECT
  | INDIRECT
  | PENALTY
  | KICKOFF
  deriving DecidableEq, Repr

/-- Enumerator values of `GameRestart`. -/
def GameRestart.toInt : GameRestart → Int
  | .NEUTRAL => 0
  | .DIRECT => 1
  | .INDIRECT => 2
  | .PENALTY => 3
  | .KICKOFF => 4

/-- The record `GameInfo::Data`, field by field in declaration order. -/
structure GameInfo.Data where
  teamnames : CArray String NUM_TEAMS
  restart : GameRestart
  state : GameState
  stage : GameStage
  laststate : GameState
  gamestart : Int
  gametime : Double
  time_taken : Double
  timelimits : CArray Double NR_GAME_STAGES
  timeouts : CArray Double NUM_TEAMS
  nrtimeouts : CArray Int NUM_TEAMS
  timeoutteam : Int
  timeoutstarttime : Double
  goals : CArray Int NUM_TEAMS
  penaltygoals : CArray Int NUM_TEAMS
  yellowcards : CArray Int NUM_TEAMS
  timepenalty : CArray Double NUM_TEAMS
  yellowcard_time : Double
  redcards : CArray Int NUM_TEAMS
  penalties : CArray Int NUM_TEAMS
  freekicks : CArray Int NUM_TEAMS
  restarts : Int

/-- The class `GameInfo`: its `data` member. -/
structure GameInfo where
  data : GameInfo.Data

namespace GameInfo

/-- The method `getStateString`: a `switch` on `data.state`. -/
def getStateString (g : GameInfo) : String :=
  let v := g.data.state.toInt
  if v = GameState.HALTED.toInt then "Halted"
  else if v = GameState.STOPPED.toInt then "Stopped"
  else if v = GameState.TIMEOUT.toInt then "Timeout"
  else if v = GameState.PRESTART.toInt then "Prestart"
  else if v = GameState.RUNNING.toInt then "Running"
  else "Unknown state!!!!\n"

/-- The method `getStageString`: a `switch` on `data.stage`. -/
def getStageString (g : GameInfo) : String :=
  let v := g.data.stage.toInt
  if v = GameStage.PREGAME.toInt then "Pre-game"
  else if v = GameStage.PRESECONDHALF.toInt then "Pre-second half"
  else if v = GameStage.PREOVERTIME1.toInt then "Pre-overtime first half"
  else if v = GameStage.PREOVERTIME2.toInt then "Pre-overtime second half"
  else if v = GameStage.FIRST_HALF.toInt then "First Half"
  else if v = GameStage.HALF_TIME.toInt then "Half Time"
  else if v = GameStage.SECOND_HALF.toInt then "Second Half"
  else if v = GameStage.OVER_TIME1.toInt then "Overtime first half"
  else if v = GameStage.OVER_TIME2.toInt then "Overtime second half"
  else if v = GameStage.PENALTY_SHOOTOUT.toInt then "Penalty Shootout"
  else "Unknown stage!!!!\n"

/-- The method `getRestartString`: a `switch` on `data.stage` (as in the source)
whose case labels are the `GameRestart` enumerators. -/
def getRestartString (g : GameInfo) : String :=
  let v := g.data.stage.toInt
  if v = GameRestart.NEUTRAL.toInt then "Neutral"
  else if v = GameRestart.DIRECT.toInt then "Direct"
  else if v = GameRestart.INDIRECT.toInt then "Indirect"
  else if v = GameRestart.PENALTY.toInt then "Penalty"
  else if v = GameRestart.KICKOFF.toInt then "Kickoff"
  else "Unknown restart!!!!\n"

/-- The method `isTimeComplete`:
`data.time_taken >= data.timelimits[static_cast<unsigned int>(data.stage)]`. -/
def isTimeComplete (g : GameInfo) : Option Bool :=
  (g.data.timelimits.read (static_cast_uint g.data.stage.toInt)).map
    (fun lim => decide (g.data.time_taken ≥ lim))

/-- The method `timeRemaining`:
`std::max(0.0, data.timelimits[static_cast<unsigned int>(data.stage)] - data.time_taken)`. -/
def timeRemaining (g : GameInfo) : Option Double :=
  (g.data.timelimits.read (static_cast_uint g.data.stage.toInt)).map
    (fun lim => std_max 0 (lim - g.data.time_taken))

/-- The method `timeTaken`. -/
def timeTaken (g : GameInfo) : Double := g.data.time_taken

/-- The method `isTimeout`. -/
def isTimeout (g : GameInfo) : Bool := decide (g.data.state = GameState.TIMEOUT)

/-- The method `isHalted`. -/
def isHalted (g : GameInfo) : Bool := decide (g.data.state = GameState.HALTED)

/-- The method `isStopped`. -/
def isStopped (g : GameInfo) : Bool := decide (g.data.state = GameState.STOPPED)

/-- The method `isPrestart`. -/
def isPrestart (g : GameInfo) : Bool := decide (g.data.state = GameState.PRESTART)

/-- The method `isRunning`. -/
def isRunning (g : GameInfo) : Bool := decide (g.data.state = GameState.RUNNING)

/-- The method `isGeneralPlay`. -/
def isGeneralPlay (g : GameInfo) : Bool :=
  decide (g.data.stage = GameStage.FIRST_HALF) || decide (g.data.stage = GameStage.SECOND_HALF)
    || decide (g.data.stage = GameStage.OVER_TIME1) || decide (g.data.stage = GameStage.OVER_TIME2)

/-- The method `timeoutRemaining(int team = -1)`:
`data.timeouts[(team < 0) ? data.timeoutteam : team]`. -/
def timeoutRemaining (g : GameInfo) (team : Int := -1) : Option Double :=
  g.data.timeouts.read (if team < 0 then g.data.timeoutteam else team)

/-- The method `nrTimeouts(int team = -1)`:
`data.nrtimeouts[(team < 0) ? data.timeoutteam : team]`. -/
def nrTimeouts (g : GameInfo) (team : Int := -1) : Option Int :=
  g.data.nrtimeouts.read (if team < 0 then g.data.timeoutteam else team)

/-- The method `isTimeoutComplete`: `data.timeouts[data.timeoutteam] <= 0`. -/
def isTimeoutComplete (g : GameInfo) : Option Bool :=
  (g.data.timeouts.read g.data.timeoutteam).map (fun r => decide (r ≤ 0))

/-- The method `setTimelimits(tlim, touts, ntouts)`: `tlim` points to
`NR_GAME_STAGES` limits and `touts` to `NUM_TEAMS` budgets. -/
def setTimelimits (g : GameInfo) (tlim : CArray Double NR_GAME_STAGES)
    (touts : CArray Double NUM_TEAMS) (ntouts : Int) : GameInfo :=
  { g with data :=
    { g.data with
      timelimits := std_copy_n tlim NR_GAME_STAGES g.data.timelimits
      timeouts := std_copy_n touts NUM_TEAMS g.data.timeouts
      nrtimeouts := std_fill_n g.data.nrtimeouts NUM_TEAMS ntouts } }

end GameInfo

/-- The slot of a stage in the per-stage array `timelimits`: the enumerator's
value. -/
def GameStage.index (s : GameStage) : Fin NR_GAME_STAGES :=
  ⟨s.toInt.toNat, by cases s <;> decide⟩

/-- The slot of a team in a per-team array: the enumerator's value. -/
def Team.index (t : Team) : Fin NUM_TEAMS :=
  ⟨t.toInt.toNat, by cases t <;> decide⟩

/-- The library function `std::floor(x)`: the largest integer not above `x`,
as a `double`. -/
def std_floor (x : Double) : Double := ((⌊x⌋ : Int) : Double)

/-- Truncation toward zero of a `double`. -/
def double_trunc (x : Double) : Int := if 0 ≤ x then ⌊x⌋ else ⌈x⌉

/-- The library function `std::fmod(x, y)` for `y` different from zero:
`x - n * y` where `n` is `x / y` truncated toward zero. -/
def std_fmod (x y : Double) : Double := x - (double_trunc (x / y) : Double) * y

/-- The conversion `static_cast<unsigned int>(x)` of a `double`: the value
truncated toward zero; `none` (undefined behaviour) when the truncated value is
not in `0 .. 2^32 - 1`. -/
def double_to_uint (x : Double) : Option Nat :=
  if 0 ≤ double_trunc x ∧ double_trunc x < 2 ^ 32 then some (double_trunc x).toNat else none

/-- The display helper
`#define DISP_MIN(t) ((t) <= 0.0 ? 0 : static_cast<unsigned int>(std::floor((t) / 60.0)))`,
an `unsigned int`. -/
def DISP_MIN (t : Double) : Option Nat :=
  if t ≤ 0 then some 0 else double_to_uint (std_floor (t / 60))

/-- The display helper
`#define DISP_SEC(t) ((t) <= 0.0 ? 0.0 : std::fmod((t), 60.0))`. -/
def DISP_SEC (t : Double) : Double :=
  if t ≤ 0 then 0 else std_fmod t 60

namespace GameInfo

/-- The method `isGameTied`: `data.goals[Blue] == data.goals[Yellow]`. -/
def isGameTied (g : GameInfo) : Bool :=
  decide (g.data.goals Team.Blue.index = g.data.goals Team.Yellow.index)

/-- The method `resetTimer`. -/
def resetTimer (g : GameInfo) : GameInfo :=
  { g with data := { g.data with time_taken := 0 } }

/-- The method `canRestart`. -/
def canRestart (g : GameInfo) : Bool := decide (g.data.state = GameState.STOPPED)

/-- The method `setRunning`. -/
def setRunning (g : GameInfo) : GameInfo :=
  { g with data := { g.data with state := GameState.RUNNING } }

/-- The method `setPrestart`. -/
def setPrestart (g : GameInfo) : GameInfo :=
  { g with data := { g.data with state := GameState.PRESTART } }

/-- The method `setStopped`. -/
def setStopped (g : GameInfo) : GameInfo :=
  { g with data := { g.data with state := GameState.STOPPED } }

end GameInfo

/-- A match state with every counter and clock at zero, empty team names,
stage `PREGAME` and play state `HALTED`. -/
def blankData : GameInfo.Data where
  teamnames := fun _ => ""
  restart := GameRestart.NEUTRAL
  state := GameState.HALTED
  stage := GameStage.PREGAME
  laststate := GameState.HALTED
  gamestart := 0
  gametime := 0
  time_taken := 0
  timelimits := fun _ => 0
  timeouts := fun _ => 0
  nrtimeouts := fun _ => 0
  timeoutteam := 0
  timeoutstarttime := 0
  goals := fun _ => 0
  penaltygoals := fun _ => 0
  yellowcards := fun _ => 0
  timepenalty := fun _ => 0
  yellowcard_time := 0
  redcards := fun _ => 0
  penalties := fun _ => 0
  freekicks := fun _ => 0
  restarts := 0

/-- First half running with a 300 s limit on every stage and 30 s elapsed. -/
def firstHalfAt30 : GameInfo :=
  { data := { blankData with
      state := GameState.RUNNING
      stage := GameStage.FIRST_HALF
      gametime := 30
      time_taken := 30
      timelimits := fun _ => 300 } }

/-- A time-complete first half that ran past its limit: 300 s limit on every
stage, 400 s elapsed. -/
def firstHalfAt400 : GameInfo :=
  { data := { blankData with
      state := GameState.RUNNING
      stage := GameStage.FIRST_HALF
      gametime := 400
      time_taken := 400
      timelimits := fun _ => 300 } }

/-- Pre-game with a kickoff recorded as the restart kind. -/
def kickoffPregame : GameInfo :=
  { data := { blankData with restart := GameRestart.KICKOFF } }

/-- First half with a kickoff recorded as the restart kind. -/
def kickoffFirstHalf : GameInfo :=
  { data := { blankData with
      restart := GameRestart.KICKOFF
      stage := GameStage.FIRST_HALF } }

/-- A timeout taken by Yellow in the first half: Blue has 120 s and 4 timeouts
left, Yellow has used up its budget and has 3 timeouts left. -/
def yellowTimeout : GameInfo :=
  { data := { blankData with
      state := GameState.TIMEOUT
      stage := GameStage.FIRST_HALF
      laststate := GameState.STOPPED
      timeouts := fun t => if t = Team.Blue.index then 120 else 0
      nrtimeouts := fun t => if t = Team.Blue.index then 4 else 3
      timeoutteam := Team.Yellow.toInt } }

/-! ## The controller (`gamecontroller.h`)

The header declares the controller's operations; their bodies are not among
the sources, so each operation below is written from the specification.  The
controller's Match State is the record `GameInfo::Data`; change notifications,
logging and persistence do not touch the Match State and are left out. -/

/-- Modelled from the spec: the Match State the controller owns (the member
`SaveState state` of `GameController`, whose type is not among the sources);
the spec's Match State record has the fields of `GameInfo::Data`. -/
abbrev MatchState := GameInfo.Data

/-- Modelled from the spec: the value of the timeout owner when no timeout is
active ("clear timeout owner"); the spec does not name it, a negative team
number is what `timeoutRemaining` takes for "no team". -/
def NO_TEAM : Int := -1

/-- The other team. -/
def Team.other : Team → Team
  | .Blue => .Yellow
  | .Yellow => .Blue

/-- Modelled from the spec: the follower of a stage in the fixed sequence
pre-game, first half, half time, pre-second-half, second half, pre-overtime-1,
overtime-1, pre-overtime-2, overtime-2, penalty shootout (the type
`SSL_Referee::Stage` is not among the sources); the last stage has none. -/
def GameStage.successor : GameStage → Option GameStage
  | .PREGAME => some .FIRST_HALF
  | .FIRST_HALF => some .HALF_TIME
  | .HALF_TIME => some .PRESECONDHALF
  | .PRESECONDHALF => some .SECOND_HALF
  | .SECOND_HALF => some .PREOVERTIME1
  | .PREOVERTIME1 => some .OVER_TIME1
  | .OVER_TIME1 => some .PREOVERTIME2
  | .PREOVERTIME2 => some .OVER_TIME2
  | .OVER_TIME2 => some .PENALTY_SHOOTOUT
  | .PENALTY_SHOOTOUT => none

/-- Modelled from the spec: the "stages gated by match outcome (overtime,
penalty shootout)" of section 4.1: the two overtime stages and the penalty
shootout. -/
def GameStage.gatedByOutcome : GameStage → Bool
  | .OVER_TIME1 => true
  | .OVER_TIME2 => true
  | .PENALTY_SHOOTOUT => true
  | _ => false

/-- Modelled from the spec: the directives of section 4.2 (the type
`SSL_Referee::Command` is not among the sources), by category: halt, stop,
the two play-start directives, a restart directive with its kind and team, the
start of a team's timeout, the end of the timeout, a goal for a team. -/
inductive Command where
  | halt
  | stop
  | start
  | forceStart
  | restart (kind : GameRestart) (team : Team)
  | timeoutStart (team : Team)
  | timeoutEnd
  | goal (team : Team)
  deriving DecidableEq, Repr

/-- Modelled from the spec: what a directive reads from outside the Match
State: the wall clock for the match-start timestamp, the clock value recorded
as timeout-start timestamp, and whether the transition to running is "the
stage's first entry into running" (the spec does not say how this is
detected). -/
structure Stamps where
  wallclock : Int
  clock : Double
  first_run : Bool

/-- The exchange of the two entries of a per-team array. -/
def exchange {α : Type} (a : CArray α NUM_TEAMS) : CArray α NUM_TEAMS :=
  fun t => if t = Team.Blue.index then a Team.Yellow.index else a Team.Blue.index

/-- The slot of the per-team arrays named by a team number held in an `int`,
if there is one. -/
def teamSlot (i : Int) : Option (Fin NUM_TEAMS) :=
  if h : 0 ≤ i ∧ i.toNat < NUM_TEAMS then some ⟨i.toNat, h.2⟩ else none

namespace GameController

/-- Modelled from the spec: `nextHalfTime()`, section 4.1, "a pure lookup
returning the Stage that would follow the current one". -/
def next_half_time (s : MatchState) : Option GameStage := s.stage.successor

/-- Modelled from the spec: `canEnterStage(target)`, section 4.1: `target` is
the immediate successor of the current stage and, for a stage gated by match
outcome, the score is tied. -/
def can_enter_stage (s : MatchState) (stage : GameStage) : Bool :=
  decide (s.stage.successor = some stage)
    && (!stage.gatedByOutcome || decide (s.goals Team.Blue.index = s.goals Team.Yellow.index))

/-- Modelled from the spec: `enterStage(target)`, section 4.1: records the
previous play state, sets the stage, sets the play state to prestart, resets
the stage-elapsed time and clears the pending card/timeout action (the timeout
owner and the yellow-card countdown); by section 7 a call whose guard fails is
a no-op. -/
def enter_stage (s : MatchState) (stage : GameStage) : MatchState :=
  if can_enter_stage s stage then
    { s with
      laststate := s.state
      stage := stage
      state := GameState.PRESTART
      time_taken := 0
      timeoutteam := NO_TEAM
      yellowcard_time := 0 }
  else s

/-- Modelled from the spec: `canSetCommand(directive)`, section 4.2, the
compatibility table keyed by play state and directive category; the table
sets no condition for halt and stop. -/
def can_set_command (s : MatchState) : Command → Bool
  | .halt => true
  | .stop => true
  | .start => decide (s.state = GameState.STOPPED) || decide (s.state = GameState.PRESTART)
  | .forceStart => decide (s.state = GameState.STOPPED) || decide (s.state = GameState.PRESTART)
  | .restart _ _ => decide (s.state = GameState.STOPPED)
  | .timeoutStart team =>
      decide (s.state = GameState.STOPPED) && decide (0 < s.nrtimeouts team.index)
  | .timeoutEnd => decide (s.state = GameState.TIMEOUT)
  | .goal _ => decide (s.state = GameState.RUNNING) || decide (s.state = GameState.STOPPED)

/-- Modelled from the spec: the pre-to-running transition of section 4.2a
(`advance_from_pre`): zeroes the stage-elapsed time, stamps the match-start
time on the stage's first entry into running, sets the play state to
running. -/
def advance_from_pre (s : MatchState) (env : Stamps) : MatchState :=
  { s with
    time_taken := 0
    gamestart := if env.first_run then env.wallclock else s.gamestart
    state := GameState.RUNNING }

/-- Modelled from the spec: the effect of a directive whose guard holds,
section 4.2, by category. -/
def apply_command (s : MatchState) (env : Stamps) : Command → MatchState
  | .halt => { s with state := GameState.HALTED }
  | .stop => { s with state := GameState.STOPPED }
  | .start =>
      if s.state = GameState.PRESTART then advance_from_pre s env
      else { s with
        state := GameState.RUNNING
        gamestart := if env.first_run then env.wallclock else s.gamestart }
  | .forceStart =>
      if s.state = GameState.PRESTART then advance_from_pre s env
      else { s with
        state := GameState.RUNNING
        gamestart := if env.first_run then env.wallclock else s.gamestart }
  | .restart kind _ => { s with restart := kind, state := GameState.STOPPED }
  | .timeoutStart team =>
      { s with
        nrtimeouts := Function.update s.nrtimeouts team.index (s.nrtimeouts team.index - 1)
        timeoutteam := team.toInt
        timeoutstarttime := env.clock
        state := GameState.TIMEOUT }
  | .timeoutEnd => { s with state := GameState.STOPPED, timeoutteam := NO_TEAM }
  | .goal team =>
      if s.stage = GameStage.PENALTY_SHOOTOUT then
        { s with
          penaltygoals := Function.update s.penaltygoals team.index
            (s.penaltygoals team.index + 1) }
      else
        { s with goals := Function.update s.goals team.index (s.goals team.index + 1) }

/-- Modelled from the spec: `setCommand(directive)`, section 4.2; by section 7
the controller re-validates the guard and a call whose guard fails is a
no-op. -/
def set_command (s : MatchState) (env : Stamps) (command : Command) : MatchState :=
  if can_set_command s command then apply_command s env command else s

/-- Modelled from the spec: `canSwitchColours()`, section 4.3: the stage is
pre-game. -/
def can_switch_colours (s : MatchState) : Bool := decide (s.stage = GameStage.PREGAME)

/-- Modelled from the spec: `switchColours()`, section 4.3: exchanges every
per-team field between the two teams and changes nothing outside the per-team
arrays; by section 7 a call whose guard fails is a no-op. -/
def switch_colours (s : MatchState) : MatchState :=
  if can_switch_colours s then
    { s with
      teamnames := exchange s.teamnames
      timeouts := exchange s.timeouts
      nrtimeouts := exchange s.nrtimeouts
      goals := exchange s.goals
      penaltygoals := exchange s.penaltygoals
      yellowcards := exchange s.yellowcards
      timepenalty := exchange s.timepenalty
      redcards := exchange s.redcards
      penalties := exchange s.penalties
      freekicks := exchange s.freekicks }
  else s

/-- Modelled from the spec: `canSubtractGoal(team)`, section 4.3: the team's
goal count is positive. -/
def can_subtract_goal (s : MatchState) (team : Team) : Bool :=
  decide (0 < s.goals team.index)

/-- Modelled from the spec: `subtractGoal(team)`, section 4.3: decrements the
team's goal count by one; by section 7 a call whose guard fails is a no-op. -/
def subtract_goal (s : MatchState) (team : Team) : MatchState :=
  if can_subtract_goal s team then
    { s with goals := Function.update s.goals team.index (s.goals team.index - 1) }
  else s

/-- Modelled from the spec: `tick`, section 4.5, for `elapsed` microseconds
since the previous tick; the clocks of the Match State count seconds.  While
running the elapsed time is added to the total game time and to the
stage-elapsed time; during a timeout it is subtracted from the owner's
remaining timeout, clamped at zero, and at zero the timeout ends (play state
stopped, owner cleared); an active yellow-card countdown is decreased, clamped
at zero. -/
def tick (s : MatchState) (elapsed : Nat) : MatchState :=
  let dt : Double := (elapsed : Double) / 1000000
  let s1 : MatchState :=
    match s.state with
    | .RUNNING => { s with gametime := s.gametime + dt, time_taken := s.time_taken + dt }
    | .TIMEOUT =>
        match teamSlot s.timeoutteam with
        | some owner =>
            let left := std_max 0 (s.timeouts owner - dt)
            if left = 0 then
              { s with
                timeouts := Function.update s.timeouts owner left
                state := GameState.STOPPED
                timeoutteam := NO_TEAM }
            else { s with timeouts := Function.update s.timeouts owner left }
        | none => s
    | _ => s
  if 0 < s1.yellowcard_time then
    { s1 with yellowcard_time := std_max 0 (s1.yellowcard_time - dt) }
  else s1

end GameController

/-- The opening of a match: pre-game, halted, no goals, 300 s for every stage,
120 s and 4 timeouts for each team. -/
def openingState : MatchState :=
  { blankData with
    teamnames := fun t => if t = Team.Blue.index then "Blue" else "Yellow"
    timelimits := fun _ => 300
    timeouts := fun _ => 120
    nrtimeouts := fun _ => 4
    timeoutteam := NO_TEAM }

/-- The wall clock and flags used in the worked examples. -/
def openingStamps : Stamps :=
  { wallclock := 1000, clock := 0, first_run := true }

/-- Pre-game with team names set, one goal for Blue, a yellow card and a
shorter timeout budget for Yellow. -/
def lopsidedPregame : MatchState :=
  { openingState with
    goals := fun t => if t = Team.Blue.index then 1 else 0
    yellowcards := fun t => if t = Team.Blue.index then 0 else 1
    timeouts := fun t => if t = Team.Blue.index then 120 else 45 }

/-- The scenario of section 8 of the specification, step by step: the first
half is entered from the opening state. -/
def scenarioPrestart : MatchState :=
  GameController.enter_stage openingState GameStage.FIRST_HALF

/-- The scenario, next step: a start directive. -/
def scenarioRunning : MatchState :=
  GameController.set_command scenarioPrestart openingStamps Command.start

/-- The scenario, next step: a tick of 30,000,000 microseconds. -/
def scenarioAt30 : MatchState :=
  GameController.tick scenarioRunning 30000000

/-- The scenario, next step: a goal directive for Blue. -/
def scenarioGoal : MatchState :=
  GameController.set_command scenarioAt30 openingStamps (Command.goal Team.Blue)

/-- The scenario, last step: the goal is subtracted again. -/
def scenarioCorrected : MatchState :=
  GameController.subtract_goal scenarioGoal Team.Blue

/-! ## Reading the per-stage array -/

theorem read_stage (a : CArray Double NR_GAME_STAGES) (s : GameStage) :
    a.read (static_cast_uint s.toInt) = some (a s.index) := by
  cases s <;> rfl

theorem std_max_eq_max (a b : Double) : std_max a b = max a b := by
  unfold std_max
  split_ifs with h
  · exact (max_eq_right h.le).symm
  · exact (max_eq_left (not_lt.mp h)).symm

/-! ## The stage clock -/

/-- C1: `timeRemaining()` is `max(0, timelimits[stage] - time_taken)` for the
current stage; it is never negative; with a stage limit of 300 and 30 elapsed
it is 270. -/
theorem timeRemaining_spec (g : GameInfo) :
    g.timeRemaining = some (max 0 (g.data.timelimits g.data.stage.index - g.data.time_taken))
    ∧ (∀ r, g.timeRemaining = some r → 0 ≤ r)
    ∧ (g.data.timelimits g.data.stage.index = 300 → g.data.time_taken = 30 →
        g.timeRemaining = some 270) := by
  have h : g.timeRemaining
      = some (max 0 (g.data.timelimits g.data.stage.index - g.data.time_taken)) := by
    simp [GameInfo.timeRemaining, read_stage, std_max_eq_max]
  refine ⟨h, ?_, ?_⟩
  · intro r hr
    rw [h] at hr
    cases hr
    exact le_max_left _ _
  · intro hl ht
    rw [h, hl, ht]
    norm_num

theorem timeRemaining_spec_witness :
    firstHalfAt30.timeRemaining = some 270 ∧ (0 : Double) ≤ 270 :=
  have h := (timeRemaining_spec firstHalfAt30).2.2 rfl rfl
  ⟨h, (timeRemaining_spec firstHalfAt30).2.1 270 h⟩

theorem isTimeComplete_eq (g : GameInfo) :
    g.isTimeComplete
      = some (decide (g.data.time_taken ≥ g.data.timelimits g.data.stage.index)) := by
  simp [GameInfo.isTimeComplete, read_stage]

/-- C2: `isTimeComplete()` is true iff `time_taken >= timelimits[stage]` for the
current stage, and replacing the limits of the other nine stages does not
change the result. -/
theorem isTimeComplete_spec (g : GameInfo) :
    (g.isTimeComplete = some true ↔
        g.data.time_taken ≥ g.data.timelimits g.data.stage.index)
    ∧ (g.isTimeComplete = some false ↔
        ¬ g.data.time_taken ≥ g.data.timelimits g.data.stage.index)
    ∧ (∀ tl : CArray Double NR_GAME_STAGES,
        tl g.data.stage.index = g.data.timelimits g.data.stage.index →
        GameInfo.isTimeComplete { g with data := { g.data with timelimits := tl } }
          = g.isTimeComplete) := by
  refine ⟨?_, ?_, ?_⟩
  · rw [isTimeComplete_eq]; simp
  · rw [isTimeComplete_eq]; simp
  · intro tl h
    rw [isTimeComplete_eq, isTimeComplete_eq]
    simp only [h]

theorem isTimeComplete_spec_witness :
    firstHalfAt400.isTimeComplete = some true
    ∧ firstHalfAt30.isTimeComplete = some false
    ∧ GameInfo.isTimeComplete
        { firstHalfAt30 with data := { firstHalfAt30.data with
            timelimits := fun i => if i = GameStage.FIRST_HALF.index then 300 else 1 } }
        = firstHalfAt30.isTimeComplete :=
  ⟨(isTimeComplete_spec firstHalfAt400).1.mpr (by norm_num [firstHalfAt400, blankData]),
   (isTimeComplete_spec firstHalfAt30).2.1.mpr (by norm_num [firstHalfAt30, blankData]),
   (isTimeComplete_spec firstHalfAt30).2.2 _ (by simp [firstHalfAt30, blankData])⟩

/-! ## The restart label -/

/-- C3: evaluation of `getRestartString()` on two states whose restart kind is
`KICKOFF`: in pre-game the label is "Neutral", in the first half it is
"Direct"; the label follows the stage and not the restart kind. -/
theorem getRestartString_follows_stage :
    kickoffPregame.data.restart = GameRestart.KICKOFF
    ∧ kickoffFirstHalf.data.restart = GameRestart.KICKOFF
    ∧ kickoffPregame.getRestartString = "Neutral"
    ∧ kickoffFirstHalf.getRestartString = "Direct"
    ∧ kickoffPregame.getRestartString ≠ "Kickoff"
    ∧ kickoffPregame.getRestartString ≠ kickoffFirstHalf.getRestartString := by
  decide

/-! ## Elapsed time of a time-complete stage -/

/-- C4, as stated, fails: a first half with a 300 s limit and 400 s elapsed is
time-complete and its elapsed time is above the limit. -/
theorem timeComplete_elapsed_above_limit :
    firstHalfAt400.isTimeComplete = some true
    ∧ ¬ (firstHalfAt400.data.time_taken
          ≤ firstHalfAt400.data.timelimits firstHalfAt400.data.stage.index) := by
  constructor
  · rw [isTimeComplete_eq]; norm_num [firstHalfAt400, blankData]
  · norm_num [firstHalfAt400, blankData]

/-- C4, amended: in a time-complete stage the elapsed time is greater than or
equal to the stage's limit, and `timeRemaining()` is 0. -/
theorem timeComplete_elapsed_ge_limit (g : GameInfo) (h : g.isTimeComplete = some true) :
    g.data.timelimits g.data.stage.index ≤ g.data.time_taken
    ∧ g.timeRemaining = some 0 := by
  rw [isTimeComplete_eq] at h
  have hle : g.data.timelimits g.data.stage.index ≤ g.data.time_taken := by
    simpa using h
  refine ⟨hle, ?_⟩
  simp only [GameInfo.timeRemaining, read_stage, std_max_eq_max, Option.map_some']
  rw [max_eq_left (sub_nonpos.mpr hle)]

theorem timeComplete_elapsed_ge_limit_witness :
    firstHalfAt400.data.timelimits firstHalfAt400.data.stage.index
        ≤ firstHalfAt400.data.time_taken
    ∧ firstHalfAt400.timeRemaining = some 0 :=
  timeComplete_elapsed_ge_limit firstHalfAt400
    (by rw [isTimeComplete_eq]; norm_num [firstHalfAt400, blankData])

/-! ## Timeout queries -/

theorem read_team {α : Type} (a : CArray α NUM_TEAMS) (t : Team) :
    a.read t.toInt = some (a t.index) := by
  cases t <;> rfl

/-- C5: when `timeoutteam` is a valid team, `timeoutRemaining` and `nrTimeouts`
called without argument, or with a negative team, return the entries of the
timeout owner; called with an explicit team they return the entries of that
team, whatever `timeoutteam` is. -/
theorem timeout_queries_spec (g : GameInfo) :
    (∀ owner : Team, g.data.timeoutteam = owner.toInt →
        g.timeoutRemaining = some (g.data.timeouts owner.index)
        ∧ g.nrTimeouts = some (g.data.nrtimeouts owner.index)
        ∧ ∀ team : Int, team < 0 →
            g.timeoutRemaining team = some (g.data.timeouts owner.index)
            ∧ g.nrTimeouts team = some (g.data.nrtimeouts owner.index))
    ∧ (∀ t : Team,
        g.timeoutRemaining t.toInt = some (g.data.timeouts t.index)
        ∧ g.nrTimeouts t.toInt = some (g.data.nrtimeouts t.index)) := by
  constructor
  · intro owner h
    refine ⟨?_, ?_, ?_⟩
    · simp [GameInfo.timeoutRemaining, h, read_team]
    · simp [GameInfo.nrTimeouts, h, read_team]
    · intro team hneg
      simp [GameInfo.timeoutRemaining, GameInfo.nrTimeouts, hneg, h, read_team]
  · intro t
    have hpos : ¬ t.toInt < 0 := by cases t <;> decide
    simp [GameInfo.timeoutRemaining, GameInfo.nrTimeouts, hpos, read_team]

theorem timeout_queries_spec_witness :
    (yellowTimeout.timeoutRemaining = some 0
      ∧ yellowTimeout.nrTimeouts = some 3
      ∧ yellowTimeout.timeoutRemaining (-7) = some 0
      ∧ yellowTimeout.nrTimeouts (-7) = some 3)
    ∧ (yellowTimeout.timeoutRemaining Team.Blue.toInt = some 120
      ∧ yellowTimeout.nrTimeouts Team.Blue.toInt = some 4) :=
  have h := (timeout_queries_spec yellowTimeout).1 Team.Yellow rfl
  ⟨⟨h.1, h.2.1, (h.2.2 (-7) (by decide)).1, (h.2.2 (-7) (by decide)).2⟩,
   (timeout_queries_spec yellowTimeout).2 Team.Blue⟩

/-- C6: when `timeoutteam` is a valid team, `isTimeoutComplete()` is true iff
the owner's remaining budget, which is what `timeoutRemaining()` returns, is at
most zero; replacing the other team's budget does not change the result. -/
theorem isTimeoutComplete_spec (g : GameInfo) (owner : Team)
    (h : g.data.timeoutteam = owner.toInt) :
    g.timeoutRemaining = some (g.data.timeouts owner.index)
    ∧ (g.isTimeoutComplete = some true ↔ g.data.timeouts owner.index ≤ 0)
    ∧ (g.isTimeoutComplete = some false ↔ ¬ g.data.timeouts owner.index ≤ 0)
    ∧ (∀ touts : CArray Double NUM_TEAMS,
        touts owner.index = g.data.timeouts owner.index →
        GameInfo.isTimeoutComplete { g with data := { g.data with timeouts := touts } }
          = g.isTimeoutComplete) := by
  refine ⟨?_, ?_, ?_, ?_⟩
  · simp [GameInfo.timeoutRemaining, h, read_team]
  · simp [GameInfo.isTimeoutComplete, h, read_team]
  · simp [GameInfo.isTimeoutComplete, h, read_team]
  · intro touts ht
    simp [GameInfo.isTimeoutComplete, h, read_team, ht]

theorem isTimeoutComplete_spec_witness :
    yellowTimeout.timeoutRemaining = some 0
    ∧ yellowTimeout.isTimeoutComplete = some true
    ∧ GameInfo.isTimeoutComplete
        { yellowTimeout with data := { yellowTimeout.data with timeouts := fun _ => 0 } }
        = yellowTimeout.isTimeoutComplete :=
  have h := isTimeoutComplete_spec yellowTimeout Team.Yellow rfl
  ⟨h.1, h.2.1.mpr (by decide), h.2.2.2 (fun _ => 0) (by decide)⟩

/-! ## Loading the configured limits -/

/-- C7: after `setTimelimits(tlim, touts, ntouts)` the ten stage limits are
those of `tlim`, the two timeout budgets are those of `touts`, both timeout
counts are `ntouts`, and every other field of the match state is unchanged. -/
theorem setTimelimits_spec (g : GameInfo) (tlim : CArray Double NR_GAME_STAGES)
    (touts : CArray Double NUM_TEAMS) (ntouts : Int) :
    (∀ s : GameStage, (g.setTimelimits tlim touts ntouts).data.timelimits s.index = tlim s.index)
    ∧ (∀ i : Fin NR_GAME_STAGES, (g.setTimelimits tlim touts ntouts).data.timelimits i = tlim i)
    ∧ (∀ t : Team, (g.setTimelimits tlim touts ntouts).data.timeouts t.index = touts t.index)
    ∧ (∀ t : Team, (g.setTimelimits tlim touts ntouts).data.nrtimeouts t.index = ntouts)
    ∧ g.setTimelimits tlim touts ntouts
        = { data := { g.data with
              timelimits := tlim
              timeouts := touts
              nrtimeouts := fun _ => ntouts } } := by
  have hl : std_copy_n tlim NR_GAME_STAGES g.data.timelimits = tlim := by
    funext j
    simp only [std_copy_n]
    rw [if_pos j.isLt]
  have ht : std_copy_n touts NUM_TEAMS g.data.timeouts = touts := by
    funext j
    simp only [std_copy_n]
    rw [if_pos j.isLt]
  have hn : std_fill_n g.data.nrtimeouts NUM_TEAMS ntouts = fun _ => ntouts := by
    funext j
    simp only [std_fill_n]
    rw [if_pos j.isLt]
  have h : g.setTimelimits tlim touts ntouts
      = { data := { g.data with
            timelimits := tlim
            timeouts := touts
            nrtimeouts := fun _ => ntouts } } := by
    simp only [GameInfo.setTimelimits, hl, ht, hn]
  refine ⟨?_, ?_, ?_, ?_, h⟩
  · intro s; rw [h]
  · intro i; rw [h]
  · intro t; rw [h]
  · intro t; rw [h]

/-! ## The stage enumeration -/

/-- C8: the stage enumerators have the values 0 to 9 in the order pre-game,
first half, half time, pre-second-half, second half, pre-overtime-1,
overtime-1, pre-overtime-2, overtime-2, penalty shootout; `NR_GAME_STAGES` is
10; the index computed by `isTimeComplete` and `timeRemaining` is below
`NR_GAME_STAGES` for every stage, distinct stages use distinct slots, and both
queries return a value in every match state. -/
theorem stage_enumeration_spec :
    (GameStage.PREGAME.toInt = 0 ∧ GameStage.FIRST_HALF.toInt = 1
      ∧ GameStage.HALF_TIME.toInt = 2 ∧ GameStage.PRESECONDHALF.toInt = 3
      ∧ GameStage.SECOND_HALF.toInt = 4 ∧ GameStage.PREOVERTIME1.toInt = 5
      ∧ GameStage.OVER_TIME1.toInt = 6 ∧ GameStage.PREOVERTIME2.toInt = 7
      ∧ GameStage.OVER_TIME2.toInt = 8 ∧ GameStage.PENALTY_SHOOTOUT.toInt = 9)
    ∧ NR_GAME_STAGES = 10
    ∧ (∀ s : GameStage, static_cast_uint s.toInt < NR_GAME_STAGES)
    ∧ Function.Bijective GameStage.index
    ∧ (∀ g : GameInfo, g.isTimeComplete.isSome = true ∧ g.timeRemaining.isSome = true) := by
  refine ⟨by decide, by decide, ?_, ⟨?_, ?_⟩, ?_⟩
  · intro s; cases s <;> decide
  · intro a b; cases a <;> cases b <;> decide
  · intro i
    fin_cases i
    exacts [⟨.PREGAME, rfl⟩, ⟨.FIRST_HALF, rfl⟩, ⟨.HALF_TIME, rfl⟩, ⟨.PRESECONDHALF, rfl⟩,
      ⟨.SECOND_HALF, rfl⟩, ⟨.PREOVERTIME1, rfl⟩, ⟨.OVER_TIME1, rfl⟩, ⟨.PREOVERTIME2, rfl⟩,
      ⟨.OVER_TIME2, rfl⟩, ⟨.PENALTY_SHOOTOUT, rfl⟩]
  · intro g
    simp [GameInfo.isTimeComplete, GameInfo.timeRemaining, read_stage]

/-! ## The state and stage labels -/

/-- C9: `getStateString()` and `getStageString()` never return their
"Unknown ..." fallback, and two match states get the same label exactly when
they have the same play state (respectively the same stage). -/
theorem label_tables_spec :
    (∀ g : GameInfo, g.getStateString ≠ "Unknown state!!!!\n")
    ∧ (∀ g : GameInfo, g.getStageString ≠ "Unknown stage!!!!\n")
    ∧ (∀ g g' : GameInfo, g.data.state = g'.data.state ↔ g.getStateString = g'.getStateString)
    ∧ (∀ g g' : GameInfo, g.data.stage = g'.data.stage ↔ g.getStageString = g'.getStageString) := by
  refine ⟨?_, ?_, ?_, ?_⟩
  · intro g
    simp only [GameInfo.getStateString]
    generalize g.data.state = s
    cases s <;> decide
  · intro g
    simp only [GameInfo.getStageString]
    generalize g.data.stage = s
    cases s <;> decide
  · intro g g'
    simp only [GameInfo.getStateString]
    generalize g.data.state = s
    generalize g'.data.state = s'
    cases s <;> cases s' <;> decide
  · intro g g'
    simp only [GameInfo.getStageString]
    generalize g.data.stage = s
    generalize g'.data.stage = s'
    cases s <;> cases s' <;> decide

theorem label_tables_spec_witness :
    firstHalfAt30.getStateString = firstHalfAt400.getStateString
    ∧ firstHalfAt30.data.stage = firstHalfAt400.data.stage
    ∧ firstHalfAt30.getStateString = "Running"
    ∧ firstHalfAt30.getStageString = "First Half" :=
  ⟨(label_tables_spec.2.2.1 firstHalfAt30 firstHalfAt400).mp rfl,
   (label_tables_spec.2.2.2 firstHalfAt30 firstHalfAt400).mpr rfl,
   by decide, by decide⟩

/-! ## General play -/

/-- C10: `isGeneralPlay()` is true iff the stage is first half, second half,
overtime-1 or overtime-2; it is false for pre-game, half time, pre-second-half,
pre-overtime-1, pre-overtime-2 and penalty shootout. -/
theorem isGeneralPlay_spec (g : GameInfo) :
    (g.isGeneralPlay = true ↔
        g.data.stage = GameStage.FIRST_HALF ∨ g.data.stage = GameStage.SECOND_HALF
        ∨ g.data.stage = GameStage.OVER_TIME1 ∨ g.data.stage = GameStage.OVER_TIME2)
    ∧ (g.isGeneralPlay = false ↔
        g.data.stage = GameStage.PREGAME ∨ g.data.stage = GameStage.HALF_TIME
        ∨ g.data.stage = GameStage.PRESECONDHALF ∨ g.data.stage = GameStage.PREOVERTIME1
        ∨ g.data.stage = GameStage.PREOVERTIME2 ∨ g.data.stage = GameStage.PENALTY_SHOOTOUT) := by
  simp only [GameInfo.isGeneralPlay]
  generalize g.data.stage = s
  cases s <;> decide

theorem isGeneralPlay_spec_witness :
    firstHalfAt30.isGeneralPlay = true ∧ kickoffPregame.isGeneralPlay = false :=
  ⟨(isGeneralPlay_spec firstHalfAt30).1.mpr (Or.inl rfl),
   (isGeneralPlay_spec kickoffPregame).2.mpr (Or.inl rfl)⟩

/-! ## Tied games -/

/-- C11: `isGameTied()` is true iff `goals[Blue] = goals[Yellow]`; two match
states with the same goal counts get the same answer, whatever their
penalty-shootout goals, cards and other fields are. -/
theorem isGameTied_spec (g : GameInfo) :
    (g.isGameTied = true ↔ g.data.goals Team.Blue.index = g.data.goals Team.Yellow.index)
    ∧ (g.isGameTied = false ↔ g.data.goals Team.Blue.index ≠ g.data.goals Team.Yellow.index)
    ∧ (∀ g' : GameInfo, g'.data.goals = g.data.goals → g'.isGameTied = g.isGameTied) := by
  refine ⟨?_, ?_, ?_⟩
  · simp [GameInfo.isGameTied]
  · simp [GameInfo.isGameTied]
  · intro g' h
    simp only [GameInfo.isGameTied, h]

theorem isGameTied_spec_witness :
    firstHalfAt30.isGameTied = true
    ∧ GameInfo.isGameTied
        { data := { firstHalfAt30.data with
            penaltygoals := fun t => if t = Team.Blue.index then 3 else 1
            redcards := fun _ => 2 } }
        = firstHalfAt30.isGameTied :=
  ⟨(isGameTied_spec firstHalfAt30).1.mpr rfl,
   (isGameTied_spec firstHalfAt30).2.2 _ rfl⟩

/-! ## Agreement of the two stage-clock queries -/

/-- C17: `isTimeComplete()` is true iff `timeRemaining()` is 0, and it is false
iff `timeRemaining()` is positive. -/
theorem timeComplete_iff_no_time_remaining (g : GameInfo) :
    (g.isTimeComplete = some true ↔ g.timeRemaining = some 0)
    ∧ (g.isTimeComplete = some false ↔ ∃ r, g.timeRemaining = some r ∧ 0 < r) := by
  have hr : g.timeRemaining
      = some (max 0 (g.data.timelimits g.data.stage.index - g.data.time_taken)) := by
    simp [GameInfo.timeRemaining, read_stage, std_max_eq_max]
  rw [isTimeComplete_eq, hr]
  constructor
  · simp only [Option.some.injEq, decide_eq_true_eq, ge_iff_le]
    rw [max_eq_left_iff, sub_nonpos]
  · simp only [Option.some.injEq, decide_eq_false_iff_not, ge_iff_le, not_le]
    constructor
    · intro h
      exact ⟨_, rfl, lt_max_of_lt_right (sub_pos.mpr h)⟩
    · rintro ⟨r, hr', hpos⟩
      rw [← hr'] at hpos
      rcases lt_max_iff.mp hpos with h | h
      · exact absurd h (lt_irrefl _)
      · exact sub_pos.mp h

theorem timeComplete_iff_no_time_remaining_witness :
    firstHalfAt400.timeRemaining = some 0
    ∧ firstHalfAt30.isTimeComplete = some false :=
  ⟨(timeComplete_iff_no_time_remaining firstHalfAt400).1.mp
      (by rw [isTimeComplete_eq]; norm_num [firstHalfAt400, blankData]),
   (timeComplete_iff_no_time_remaining firstHalfAt30).2.mpr
      ⟨270, by simp [GameInfo.timeRemaining, read_stage, std_max_eq_max, firstHalfAt30,
          blankData]; norm_num, by norm_num⟩⟩

/-! ## The play-state predicates -/

/-- C18: in every match state exactly one of `isHalted()`, `isStopped()`,
`isTimeout()`, `isPrestart()`, `isRunning()` is true, and `canRestart()` agrees
with `isStopped()`. -/
theorem play_state_predicates_spec (g : GameInfo) :
    [g.isHalted, g.isStopped, g.isTimeout, g.isPrestart, g.isRunning].count true = 1
    ∧ g.canRestart = g.isStopped := by
  simp only [GameInfo.isHalted, GameInfo.isStopped, GameInfo.isTimeout, GameInfo.isPrestart,
    GameInfo.isRunning, GameInfo.canRestart]
  generalize g.data.state = s
  cases s <;> decide

/-! ## The setters of the play state and of the stage clock -/

/-- C20: `setRunning()`, `setPrestart()` and `setStopped()` set the play state
to `RUNNING`, `PRESTART` and `STOPPED` and change no other field, `laststate`
included; `resetTimer()` sets `time_taken` to 0 and changes no other field,
`gametime` included; each of the four is idempotent. -/
theorem setters_spec (g : GameInfo) :
    (g.setRunning = { data := { g.data with state := GameState.RUNNING } }
      ∧ g.setRunning.data.state = GameState.RUNNING
      ∧ g.setRunning.data.laststate = g.data.laststate
      ∧ g.setRunning.setRunning = g.setRunning)
    ∧ (g.setPrestart = { data := { g.data with state := GameState.PRESTART } }
      ∧ g.setPrestart.data.state = GameState.PRESTART
      ∧ g.setPrestart.data.laststate = g.data.laststate
      ∧ g.setPrestart.setPrestart = g.setPrestart)
    ∧ (g.setStopped = { data := { g.data with state := GameState.STOPPED } }
      ∧ g.setStopped.data.state = GameState.STOPPED
      ∧ g.setStopped.data.laststate = g.data.laststate
      ∧ g.setStopped.setStopped = g.setStopped)
    ∧ (g.resetTimer = { data := { g.data with time_taken := 0 } }
      ∧ g.resetTimer.data.time_taken = 0
      ∧ g.resetTimer.data.gametime = g.data.gametime
      ∧ g.resetTimer.resetTimer = g.resetTimer) :=
  ⟨⟨rfl, rfl, rfl, rfl⟩, ⟨rfl, rfl, rfl, rfl⟩, ⟨rfl, rfl, rfl, rfl⟩, ⟨rfl, rfl, rfl, rfl⟩⟩

/-! ## Splitting a time into minutes and seconds -/

theorem double_trunc_of_nonneg (x : Double) (h : 0 ≤ x) : double_trunc x = ⌊x⌋ := by
  simp [double_trunc, h]

theorem double_to_uint_floor (x : Double) (h0 : 0 ≤ x) (h1 : x < 2 ^ 32) :
    double_to_uint (std_floor x) = some ⌊x⌋.toNat := by
  have hm : (0 : Int) ≤ ⌊x⌋ := Int.floor_nonneg.mpr h0
  have hlt : ⌊x⌋ < (2 : Int) ^ 32 := by
    rw [Int.floor_lt]
    exact_mod_cast h1
  have hc : (0 : Double) ≤ ((⌊x⌋ : Int) : Double) := by exact_mod_cast hm
  have ht : double_trunc (std_floor x) = ⌊x⌋ := by
    rw [std_floor, double_trunc_of_nonneg _ hc, Int.floor_intCast]
  rw [double_to_uint, ht, if_pos ⟨hm, hlt⟩]

/-- C19: for `0 < t < 60 * 2^32`, `DISP_MIN(t)` is defined,
`60 * DISP_MIN(t) + DISP_SEC(t) = t` and `0 <= DISP_SEC(t) < 60`; for `t <= 0`
both `DISP_MIN(t)` and `DISP_SEC(t)` are 0. -/
theorem disp_min_sec_spec (t : Double) :
    (0 < t → t < 60 * 2 ^ 32 →
        ∃ m : Nat, DISP_MIN t = some m ∧ 60 * (m : Double) + DISP_SEC t = t
          ∧ 0 ≤ DISP_SEC t ∧ DISP_SEC t < 60)
    ∧ (t ≤ 0 → DISP_MIN t = some 0 ∧ DISP_SEC t = 0) := by
  constructor
  · intro hpos hlt
    have hq0 : 0 ≤ t / 60 := by positivity
    have hq1 : t / 60 < 2 ^ 32 := by
      rw [div_lt_iff₀ (by norm_num)]
      linarith
    have hm : (0 : Int) ≤ ⌊t / 60⌋ := Int.floor_nonneg.mpr hq0
    have hcast : ((⌊t / 60⌋.toNat : Nat) : Double) = ((⌊t / 60⌋ : Int) : Double) := by
      have := Int.toNat_of_nonneg hm
      exact_mod_cast congrArg (fun z : Int => (z : Double)) this
    have hsec : DISP_SEC t = t - ((⌊t / 60⌋ : Int) : Double) * 60 := by
      rw [DISP_SEC, if_neg (not_le.mpr hpos), std_fmod, double_trunc_of_nonneg _ hq0]
    have hle : ((⌊t / 60⌋ : Int) : Double) ≤ t / 60 := Int.floor_le _
    have hlt' : t / 60 < ((⌊t / 60⌋ : Int) : Double) + 1 := Int.lt_floor_add_one _
    rw [le_div_iff₀ (by norm_num)] at hle
    rw [div_lt_iff₀ (by norm_num)] at hlt'
    refine ⟨⌊t / 60⌋.toNat, ?_, ?_, ?_, ?_⟩
    · rw [DISP_MIN, if_neg (not_le.mpr hpos), double_to_uint_floor _ hq0 hq1]
    · rw [hcast, hsec]; ring
    · rw [hsec]; linarith
    · rw [hsec]; linarith
  · intro h
    simp [DISP_MIN, DISP_SEC, h]

theorem disp_min_sec_spec_witness :
    (∃ m : Nat, DISP_MIN 125 = some m ∧ 60 * (m : Double) + DISP_SEC 125 = 125
        ∧ 0 ≤ DISP_SEC 125 ∧ DISP_SEC 125 < 60)
    ∧ (DISP_MIN (-3) = some 0 ∧ DISP_SEC (-3) = 0) :=
  ⟨(disp_min_sec_spec 125).1 (by norm_num) (by norm_num),
   (disp_min_sec_spec (-3)).2 (by norm_num)⟩

/-! ## Directives are applied only when their guard holds -/

/-- C12: if `can_set_command(directive)` is false before the call then
`set_command(directive)` leaves the Match State unchanged; a call that changes
the Match State had a true guard. -/
theorem set_command_guarded (s : MatchState) (env : Stamps) (command : Command) :
    (GameController.can_set_command s command = false →
        GameController.set_command s env command = s)
    ∧ (GameController.set_command s env command ≠ s →
        GameController.can_set_command s command = true) := by
  constructor
  · intro h
    simp [GameController.set_command, h]
  · intro h
    by_contra hc
    apply h
    simp [GameController.set_command, hc]

theorem set_command_guarded_witness :
    GameController.set_command openingState openingStamps Command.start = openingState
    ∧ GameController.can_set_command openingState Command.stop = true :=
  ⟨(set_command_guarded openingState openingStamps Command.start).1 (by decide),
   (set_command_guarded openingState openingStamps Command.stop).2 (by
      intro h
      have h2 := congrArg GameInfo.Data.state h
      revert h2
      decide)⟩

/-! ## Stage transitions -/

theorem successor_iff (a b : GameStage) :
    a.successor = some b ↔ b.toInt = a.toInt + 1 := by
  cases a <;> cases b <;> decide

/-- C13: `enter_stage(target)` changes the stage only when `target` is the
immediate successor of the current stage; for any other target (the same
stage, an earlier one, one further ahead) `can_enter_stage(target)` is false
and the Match State, its stage included, is unchanged. -/
theorem enter_stage_spec (s : MatchState) (target : GameStage) :
    (target.toInt ≠ s.stage.toInt + 1 →
        GameController.can_enter_stage s target = false
        ∧ (GameController.enter_stage s target).stage = s.stage
        ∧ GameController.enter_stage s target = s)
    ∧ ((GameController.enter_stage s target).stage ≠ s.stage →
        target.toInt = s.stage.toInt + 1)
    ∧ (GameController.can_enter_stage s target = true →
        GameController.next_half_time s = some target
        ∧ (GameController.enter_stage s target).stage = target) := by
  have hno : target.toInt ≠ s.stage.toInt + 1 →
      GameController.can_enter_stage s target = false := by
    intro h
    have h' : ¬ s.stage.successor = some target := fun e => h ((successor_iff _ _).mp e)
    simp [GameController.can_enter_stage, h']
  refine ⟨?_, ?_, ?_⟩
  · intro h
    have hc := hno h
    refine ⟨hc, ?_, ?_⟩ <;> simp [GameController.enter_stage, hc]
  · intro h
    by_contra hne
    apply h
    simp [GameController.enter_stage, hno hne]
  · intro h
    have hs : s.stage.successor = some target := by
      simp only [GameController.can_enter_stage, Bool.and_eq_true, decide_eq_true_eq] at h
      exact h.1
    exact ⟨hs, by simp [GameController.enter_stage, h]⟩

theorem enter_stage_spec_witness :
    (GameController.can_enter_stage openingState GameStage.SECOND_HALF = false
      ∧ (GameController.enter_stage openingState GameStage.SECOND_HALF).stage
          = openingState.stage
      ∧ GameController.enter_stage openingState GameStage.SECOND_HALF = openingState)
    ∧ (GameController.next_half_time openingState = some GameStage.FIRST_HALF
      ∧ (GameController.enter_stage openingState GameStage.FIRST_HALF).stage
          = GameStage.FIRST_HALF)
    ∧ GameStage.FIRST_HALF.toInt = openingState.stage.toInt + 1 :=
  ⟨(enter_stage_spec openingState GameStage.SECOND_HALF).1 (by decide),
   (enter_stage_spec openingState GameStage.FIRST_HALF).2.2 (by decide),
   (enter_stage_spec openingState GameStage.FIRST_HALF).2.1 (by decide)⟩

/-! ## Switching colours -/

theorem exchange_exchange {α : Type} (a : CArray α NUM_TEAMS) : exchange (exchange a) = a := by
  funext t
  fin_cases t <;> rfl

theorem exchange_at {α : Type} (a : CArray α NUM_TEAMS) (t : Team) :
    exchange a t.index = a t.other.index := by
  cases t <;> rfl

/-- C14: when `can_switch_colours()` holds, `switch_colours()` applied twice
gives back the original Match State; one application gives each team the
other team's entry in every per-team field and changes no other field. -/
theorem switch_colours_spec (s : MatchState) (h : GameController.can_switch_colours s = true) :
    GameController.switch_colours (GameController.switch_colours s) = s
    ∧ (∀ t : Team,
        (GameController.switch_colours s).teamnames t.index = s.teamnames t.other.index
        ∧ (GameController.switch_colours s).timeouts t.index = s.timeouts t.other.index
        ∧ (GameController.switch_colours s).nrtimeouts t.index = s.nrtimeouts t.other.index
        ∧ (GameController.switch_colours s).goals t.index = s.goals t.other.index
        ∧ (GameController.switch_colours s).penaltygoals t.index = s.penaltygoals t.other.index
        ∧ (GameController.switch_colours s).yellowcards t.index = s.yellowcards t.other.index
        ∧ (GameController.switch_colours s).timepenalty t.index = s.timepenalty t.other.index
        ∧ (GameController.switch_colours s).redcards t.index = s.redcards t.other.index
        ∧ (GameController.switch_colours s).penalties t.index = s.penalties t.other.index
        ∧ (GameController.switch_colours s).freekicks t.index = s.freekicks t.other.index)
    ∧ ((GameController.switch_colours s).restart = s.restart
        ∧ (GameController.switch_colours s).state = s.state
        ∧ (GameController.switch_colours s).stage = s.stage
        ∧ (GameController.switch_colours s).laststate = s.laststate
        ∧ (GameController.switch_colours s).gamestart = s.gamestart
        ∧ (GameController.switch_colours s).gametime = s.gametime
        ∧ (GameController.switch_colours s).time_taken = s.time_taken
        ∧ (GameController.switch_colours s).timelimits = s.timelimits
        ∧ (GameController.switch_colours s).timeoutteam = s.timeoutteam
        ∧ (GameController.switch_colours s).timeoutstarttime = s.timeoutstarttime
        ∧ (GameController.switch_colours s).yellowcard_time = s.yellowcard_time
        ∧ (GameController.switch_colours s).restarts = s.restarts) := by
  have h1 : GameController.switch_colours s =
      { s with
        teamnames := exchange s.teamnames
        timeouts := exchange s.timeouts
        nrtimeouts := exchange s.nrtimeouts
        goals := exchange s.goals
        penaltygoals := exchange s.penaltygoals
        yellowcards := exchange s.yellowcards
        timepenalty := exchange s.timepenalty
        redcards := exchange s.redcards
        penalties := exchange s.penalties
        freekicks := exchange s.freekicks } := by
    simp [GameController.switch_colours, h]
  have h2 : GameController.can_switch_colours (GameController.switch_colours s) = true := by
    rw [h1]
    exact h
  refine ⟨?_, ?_, ?_⟩
  · rw [GameController.switch_colours, if_pos h2, h1]
    simp only [exchange_exchange]
  · intro t
    rw [h1]
    simp only [exchange_at, and_self]
  · rw [h1]
    simp only [and_self]

theorem switch_colours_spec_witness :
    GameController.switch_colours (GameController.switch_colours lopsidedPregame)
      = lopsidedPregame
    ∧ (GameController.switch_colours lopsidedPregame).goals Team.Yellow.index = 1
    ∧ (GameController.switch_colours lopsidedPregame).teamnames Team.Blue.index = "Yellow"
    ∧ (GameController.switch_colours lopsidedPregame).stage = GameStage.PREGAME :=
  have h := switch_colours_spec lopsidedPregame (by decide)
  ⟨h.1, (h.2.1 Team.Yellow).2.2.2.1, (h.2.1 Team.Blue).1, h.2.2.2.2.1⟩

/-! ## Subtracting a goal -/

theorem index_ne_of_ne {t u : Team} (h : u ≠ t) : u.index ≠ t.index := by
  cases t <;> cases u <;> first | exact absurd rfl h | decide

/-- C15: with `goals[team] = 0`, `can_subtract_goal(team)` is false and
`subtract_goal(team)` leaves the goals unchanged; with `goals[team] > 0` it
lowers `goals[team]` by exactly one and leaves the other team's goals
unchanged; goal counts that are not negative stay so. -/
theorem subtract_goal_spec (s : MatchState) (team : Team) :
    (s.goals team.index = 0 →
        GameController.can_subtract_goal s team = false
        ∧ (GameController.subtract_goal s team).goals = s.goals)
    ∧ (0 < s.goals team.index →
        GameController.can_subtract_goal s team = true
        ∧ (GameController.subtract_goal s team).goals team.index = s.goals team.index - 1
        ∧ (GameController.subtract_goal s team).goals team.other.index
            = s.goals team.other.index)
    ∧ ((∀ u : Team, 0 ≤ s.goals u.index) →
        ∀ u : Team, 0 ≤ (GameController.subtract_goal s team).goals u.index) := by
  refine ⟨?_, ?_, ?_⟩
  · intro h
    have hc : GameController.can_subtract_goal s team = false := by
      simp [GameController.can_subtract_goal, h]
    exact ⟨hc, by simp [GameController.subtract_goal, hc]⟩
  · intro h
    have hc : GameController.can_subtract_goal s team = true := by
      simp [GameController.can_subtract_goal, h]
    have hne : team.other.index ≠ team.index := by cases team <;> decide
    refine ⟨hc, ?_, ?_⟩
    · simp [GameController.subtract_goal, hc]
    · simp [GameController.subtract_goal, hc, Function.update_noteq hne]
  · intro hall u
    by_cases hc : GameController.can_subtract_goal s team = true
    · have hpos : 0 < s.goals team.index := by
        simpa [GameController.can_subtract_goal] using hc
      by_cases hu : u = team
      · subst hu
        simp only [GameController.subtract_goal, hc, if_true, Function.update_same]
        omega
      · simp only [GameController.subtract_goal, hc, if_true,
          Function.update_noteq (index_ne_of_ne hu)]
        exact hall u
    · simp only [GameController.subtract_goal, hc]
      exact hall u

theorem subtract_goal_spec_witness :
    (GameController.can_subtract_goal lopsidedPregame Team.Yellow = false
      ∧ (GameController.subtract_goal lopsidedPregame Team.Yellow).goals
          = lopsidedPregame.goals)
    ∧ (GameController.can_subtract_goal lopsidedPregame Team.Blue = true
      ∧ (GameController.subtract_goal lopsidedPregame Team.Blue).goals Team.Blue.index = 1 - 1
      ∧ (GameController.subtract_goal lopsidedPregame Team.Blue).goals Team.Yellow.index = 0)
    ∧ (∀ u : Team, 0 ≤ (GameController.subtract_goal lopsidedPregame Team.Blue).goals u.index) :=
  ⟨(subtract_goal_spec lopsidedPregame Team.Yellow).1 rfl,
   (subtract_goal_spec lopsidedPregame Team.Blue).2.1 (by decide),
   (subtract_goal_spec lopsidedPregame Team.Blue).2.2 (by intro u; cases u <;> decide)⟩

/-! ## The tick -/

/-- C16: a tick of `E` microseconds while running increases the stage-elapsed
time and the total game time by exactly that time (`E / 10^6` seconds); a tick
in any other play state leaves the total game time unchanged. -/
theorem tick_spec (s : MatchState) (E : Nat) :
    (s.state = GameState.RUNNING →
        (GameController.tick s E).time_taken = s.time_taken + (E : Double) / 1000000
        ∧ (GameController.tick s E).gametime = s.gametime + (E : Double) / 1000000)
    ∧ (s.state ≠ GameState.RUNNING → (GameController.tick s E).gametime = s.gametime) := by
  constructor
  · intro h
    simp only [GameController.tick, h]
    split_ifs <;> exact ⟨rfl, rfl⟩
  · intro h
    simp only [GameController.tick]
    cases hs : s.state with
    | RUNNING => exact absurd hs h
    | TIMEOUT =>
      simp only
      cases teamSlot s.timeoutteam with
      | none => simp only; split_ifs <;> rfl
      | some owner => simp only; split_ifs <;> rfl
    | HALTED => simp only; split_ifs <;> rfl
    | STOPPED => simp only; split_ifs <;> rfl
    | PRESTART => simp only; split_ifs <;> rfl

theorem tick_spec_witness :
    ((GameController.tick firstHalfAt30.data 30000000).time_taken
        = firstHalfAt30.data.time_taken + ((30000000 : Nat) : Double) / 1000000
      ∧ (GameController.tick firstHalfAt30.data 30000000).gametime
        = firstHalfAt30.data.gametime + ((30000000 : Nat) : Double) / 1000000)
    ∧ (GameController.tick yellowTimeout.data 30000000).gametime
        = yellowTimeout.data.gametime :=
  ⟨(tick_spec firstHalfAt30.data 30000000).1 rfl,
   (tick_spec yellowTimeout.data 30000000).2 (by decide)⟩

/-! ## The scenario of the specification

The controller operations written from the specification reproduce the
scenario of its section 8. -/

theorem opening_scenario :
    GameController.can_set_command openingState Command.start = false
    ∧ scenarioPrestart.stage = GameStage.FIRST_HALF
    ∧ scenarioPrestart.state = GameState.PRESTART
    ∧ scenarioRunning.state = GameState.RUNNING
    ∧ GameInfo.timeRemaining { data := scenarioAt30 } = some 270
    ∧ GameInfo.isTimeComplete { data := scenarioAt30 } = some false
    ∧ (scenarioGoal.goals Team.Blue.index = 1 ∧ scenarioGoal.goals Team.Yellow.index = 0)
    ∧ (scenarioCorrected.goals Team.Blue.index = 0
        ∧ scenarioCorrected.goals Team.Yellow.index = 0)
    ∧ GameController.can_subtract_goal scenarioCorrected Team.Blue = false
    ∧ GameController.subtract_goal scenarioCorrected Team.Blue = scenarioCorrected := by
  have ht : scenarioAt30.time_taken = 30 := by
    simp [scenarioAt30, GameController.tick, scenarioRunning, GameController.set_command,
      GameController.can_set_command, GameController.apply_command,
      GameController.advance_from_pre, scenarioPrestart, GameController.enter_stage,
      GameController.can_enter_stage, openingState, blankData, GameStage.successor,
      GameStage.gatedByOutcome]
    norm_num
  have hl : scenarioAt30.timelimits scenarioAt30.stage.index = 300 := rfl
  refine ⟨by decide, by decide, by decide, by decide, ?_, ?_, by decide,
    by decide, by decide, ?_⟩
  · simp only [GameInfo.timeRemaining, read_stage, std_max_eq_max, Option.map_some', hl, ht]
    norm_num
  · rw [isTimeComplete_eq]
    simp only [hl, ht]
    norm_num
  have h : GameController.can_subtract_goal scenarioCorrected Team.Blue = false := by decide
  simp [GameController.subtract_goal, h]
